import Mathlib

/-!
Verification of the barcode acquisition subsystem of the
Lebensmittel-Manager repository: the EAN-8/EAN-13 checksum validator
`isValidEan` (three near-duplicate variants), the scan success and
failure callback wrappers, and the camera cleanup paths, shallowly
embedded from the TypeScript source.  Strings are modelled as `List Char`.
-/

set_option maxRecDepth 4000

/-- Numeric value of a character, modelling the JavaScript `Number(c)`
conversion on a single digit character (only applied behind the digit
guard in the validator). -/
def charToNum (c : Char) : Nat := c.toNat - 48

/-- EAN checksum validator, translated from `isValidEan` in
`src/BarcodeScannerComponent.tsx` (lines 6-27): the string must be
nonempty and all digits (the regex test), have length 8 or 13, and its
last digit must equal `(10 - sum % 10) % 10` where `sum` is the
index-weighted reduce over the payload digits (weights `1,3,...` for
length 13, `3,1,...` for length 8; the even-index multiplication by 1 is
left implicit in this variant). -/
def isValidEan (barcode : List Char) : Bool :=
  if !(!barcode.isEmpty && barcode.all Char.isDigit) then false
  else
    let len := barcode.length
    if len != 8 && len != 13 then false
    else
      let digits := (barcode.map charToNum).dropLast
      let checkDigit := (barcode.map charToNum).getLast?.getD 0
      let sum :=
        if len = 13 then
          digits.enum.foldl (fun acc di => acc + (if di.1 % 2 = 0 then di.2 else di.2 * 3)) 0
        else
          digits.enum.foldl (fun acc di => acc + (if di.1 % 2 = 0 then di.2 * 3 else di.2)) 0
      let calculatedCheckDigit := (10 - sum % 10) % 10
      calculatedCheckDigit == checkDigit

/-- EAN checksum validator, translated from `isValidEan` in
`src/BarcodeScannerComponentNew.tsx` (lines 6-27).  Identical to the
variant above except that the lighter weight is written as an explicit
multiplication by 1 (`digit * 1`). -/
def isValidEanNew (barcode : List Char) : Bool :=
  if !(!barcode.isEmpty && barcode.all Char.isDigit) then false
  else
    let len := barcode.length
    if len != 8 && len != 13 then false
    else
      let digits := (barcode.map charToNum).dropLast
      let checkDigit := (barcode.map charToNum).getLast?.getD 0
      let sum :=
        if len = 13 then
          digits.enum.foldl (fun acc di => acc + (if di.1 % 2 = 0 then di.2 * 1 else di.2 * 3)) 0
        else
          digits.enum.foldl (fun acc di => acc + (if di.1 % 2 = 0 then di.2 * 3 else di.2 * 1)) 0
      let calculatedCheckDigit := (10 - sum % 10) % 10
      calculatedCheckDigit == checkDigit

/-- EAN checksum validator, translated from `isValidEan` in
`unnamed/part_000` (lines 6-27); its body is textually identical to the
`BarcodeScannerComponent.tsx` variant. -/
def isValidEanPart000 (barcode : List Char) : Bool :=
  if !(!barcode.isEmpty && barcode.all Char.isDigit) then false
  else
    let len := barcode.length
    if len != 8 && len != 13 then false
    else
      let digits := (barcode.map charToNum).dropLast
      let checkDigit := (barcode.map charToNum).getLast?.getD 0
      let sum :=
        if len = 13 then
          digits.enum.foldl (fun acc di => acc + (if di.1 % 2 = 0 then di.2 else di.2 * 3)) 0
        else
          digits.enum.foldl (fun acc di => acc + (if di.1 % 2 = 0 then di.2 * 3 else di.2)) 0
      let calculatedCheckDigit := (10 - sum % 10) % 10
      calculatedCheckDigit == checkDigit

/-- Weighted digit sum as the specification words it: digit at even
0-based index gets weight `wEven`, digit at odd index gets weight `wOdd`,
starting at index `i`.  Stated independently of the fold used by the
code, for comparison with it. -/
def specWeightedSum (wEven wOdd : Nat) : Nat → List Nat → Nat
  | _, [] => 0
  | i, d :: ds => (if i % 2 = 0 then wEven else wOdd) * d + specWeightedSum wEven wOdd (i + 1) ds

lemma foldl_enumFrom_weight13 (l : List Nat) : ∀ i acc : Nat,
    (List.enumFrom i l).foldl (fun acc di => acc + (if di.1 % 2 = 0 then di.2 else di.2 * 3)) acc
      = acc + specWeightedSum 1 3 i l := by
  induction l with
  | nil => intro i acc; simp [specWeightedSum, List.enumFrom]
  | cons d ds ih =>
    intro i acc
    simp only [List.enumFrom, List.foldl_cons, specWeightedSum, ih]
    by_cases h : i % 2 = 0 <;> simp [h] <;> omega

lemma foldl_enumFrom_weight8 (l : List Nat) : ∀ i acc : Nat,
    (List.enumFrom i l).foldl (fun acc di => acc + (if di.1 % 2 = 0 then di.2 * 3 else di.2)) acc
      = acc + specWeightedSum 3 1 i l := by
  induction l with
  | nil => intro i acc; simp [specWeightedSum, List.enumFrom]
  | cons d ds ih =>
    intro i acc
    simp only [List.enumFrom, List.foldl_cons, specWeightedSum, ih]
    by_cases h : i % 2 = 0 <;> simp [h] <;> omega

/-- Observable callback invocations made by the scanner component
towards its caller or the console. -/
inductive ScanEvent where
  | successCall : List Char → ScanEvent
  | failureCall : List Char → ScanEvent
  | logIgnored : List Char → ScanEvent
deriving DecidableEq

/-- Scan session state of `BarcodeScannerComponent`.  The component
itself keeps no per-session data readable by its callbacks; `stopped`
records only whether the effect cleanup (which calls the external
`scanner.clear()`) has run. -/
structure ScanSession where
  stopped : Bool
deriving DecidableEq

/-- Inputs a session can receive: a decoded candidate delivered by the
external decoder, or the cleanup (stop) of the component effect. -/
inductive SessionInput where
  | deliver : List Char → SessionInput
  | stop : SessionInput

/-- One session step, translated from `BarcodeScannerComponent.tsx`: a
delivered candidate runs through `onScanSuccessWrapper` (lines 63-74),
which forwards it to `onScanSuccess` exactly when `isValidEan` holds and
otherwise only logs it; the wrapper reads no session flag, so its
behavior does not depend on `stopped`.  The cleanup (lines 87-91) calls
the external `scanner.clear()` and sets no flag the wrapper could see,
so the `stop` input merely records that it ran. -/
def sessionStep (s : ScanSession) : SessionInput → ScanSession × List ScanEvent
  | .deliver t =>
      (s, if isValidEan t then [.successCall t] else [.logIgnored t])
  | .stop => ({ stopped := true }, [])

/-- Run a session over a list of inputs, concatenating the emitted
events in delivery order. -/
def sessionRun (s : ScanSession) : List SessionInput → ScanSession × List ScanEvent
  | [] => (s, [])
  | a :: as =>
      let sa := sessionStep s a
      let rest := sessionRun sa.1 as
      (rest.1, sa.2 ++ rest.2)

/-- Number of `onScanSuccess` invocations among the emitted events. -/
def successCount (evs : List ScanEvent) : Nat :=
  (evs.filter fun e => match e with | .successCall _ => true | _ => false).length

/-- The marker substring tested by the failure wrappers. -/
def notFoundMarker : List Char := "not found".toList

/-- Does `hay` start with `needle`?  Helper for the substring test. -/
def listStartsWith : List Char → List Char → Bool
  | _, [] => true
  | [], _ :: _ => false
  | c :: cs, d :: ds => (c == d) && listStartsWith cs ds

/-- Substring containment, modelling the JavaScript
`String.prototype.includes` used by the failure wrappers. -/
def strIncludes : List Char → List Char → Bool
  | [], needle => listStartsWith [] needle
  | c :: hs, needle => listStartsWith (c :: hs) needle || strIncludes hs needle

/-- ASCII lower-casing of one character, modelling the effect of the
JavaScript `toLowerCase()` on the ASCII range handled here. -/
def jsToLower (c : Char) : Char :=
  if 'A' ≤ c && c ≤ 'Z' then Char.ofNat (c.toNat + 32) else c

/-- Decoder error wrapper, translated from `onScanFailureWrapper` in
`src/BarcodeScannerComponent.tsx` (lines 76-82): an error whose message
includes "not found" is dropped, any other error is forwarded to
`onScanFailure`. -/
def onScanFailureWrapper (error : List Char) : List ScanEvent :=
  if strIncludes error notFoundMarker then [] else [.failureCall error]

/-- Decoder error wrapper, translated from `onScanFailureWrapper` in
`src/BarcodeScannerComponentNew.tsx` (lines 71-77): same as the variant
above but the message is lower-cased before the "not found" test. -/
def onScanFailureWrapperNew (error : List Char) : List ScanEvent :=
  if strIncludes (error.map jsToLower) notFoundMarker then [] else [.failureCall error]

/-- Decoder error wrapper, translated from `onScanFailureWrapper` in
`unnamed/part_000` (lines 68-74); textually identical to the
`BarcodeScannerComponent.tsx` variant. -/
def onScanFailureWrapperPart000 (error : List Char) : List ScanEvent :=
  if strIncludes error notFoundMarker then [] else [.failureCall error]

/-- Camera resource as seen at the html5-qrcode library boundary:
whether a scan is running, and how many times the camera has been
released. -/
structure CameraHandle where
  scanning : Bool
  releases : Nat
deriving DecidableEq

/-- Failure a library teardown call can reject with. -/
inductive TeardownError where
  | alreadyReleased
deriving DecidableEq

/-- Modelled from the spec: boundary behavior of the external
html5-qrcode teardown calls (`scanner.clear()` / `html5QrCode.stop()`),
which the repository code only invokes (the library itself is outside
the repository).  Tearing down an active scan releases the camera once
and succeeds; tearing down an already released device fails without a
further release (spec section 7: "device already released"). -/
def libTeardown (h : CameraHandle) : Except TeardownError CameraHandle :=
  if h.scanning then .ok { scanning := false, releases := h.releases + 1 }
  else .error .alreadyReleased

/-- Cleanup path of `BarcodeScannerComponent.tsx` (lines 87-91):
`scanner.clear().catch(console.error)`.  Returns the camera state after
the call together with a flag telling whether an exception escaped to
the caller; the attached catch handler swallows every rejection, so the
flag is false on both branches. -/
def cleanupComponentRun (h : CameraHandle) : CameraHandle × Bool :=
  match libTeardown h with
  | .ok hNext => (hNext, false)
  | .error _ => (h, false)

/-- Cleanup path of `BarcodeScannerComponentNew.tsx` (lines 91-97):
`if (html5QrCode.isScanning) { html5QrCode.stop().then(...).catch(...) }`.
The stop call only happens while scanning, and its catch handler
swallows every rejection. -/
def cleanupNewRun (h : CameraHandle) : CameraHandle × Bool :=
  if h.scanning then
    match libTeardown h with
    | .ok hNext => (hNext, false)
    | .error _ => (h, false)
  else (h, false)

lemma enum_eq_enumFrom (l : List Nat) : l.enum = List.enumFrom 0 l := rfl

lemma listStartsWith_map (hay : List Char) : ∀ needle : List Char,
    listStartsWith hay needle = true →
      listStartsWith (hay.map jsToLower) (needle.map jsToLower) = true := by
  induction hay with
  | nil =>
    intro needle h
    cases needle with
    | nil => rfl
    | cons d ds => simp [listStartsWith] at h
  | cons c cs ih =>
    intro needle h
    cases needle with
    | nil => rfl
    | cons d ds =>
      simp only [listStartsWith, Bool.and_eq_true, beq_iff_eq] at h
      simp only [List.map_cons, listStartsWith, Bool.and_eq_true, beq_iff_eq]
      exact ⟨by rw [h.1], ih ds h.2⟩

lemma strIncludes_map (hay needle : List Char)
    (h : strIncludes hay needle = true) :
    strIncludes (hay.map jsToLower) (needle.map jsToLower) = true := by
  induction hay with
  | nil => exact listStartsWith_map [] needle h
  | cons c cs ih =>
    simp only [strIncludes, Bool.or_eq_true] at h
    rcases h with h | h
    · simp only [List.map_cons, strIncludes, Bool.or_eq_true]
      exact Or.inl (listStartsWith_map (c :: cs) needle h)
    · simp only [List.map_cons, strIncludes, Bool.or_eq_true]
      exact Or.inr (ih h)

lemma successCount_append (a b : List ScanEvent) :
    successCount (a ++ b) = successCount a + successCount b := by
  simp [successCount, List.filter_append]

/-- Claim C1: for digit strings, the validator accepts a length-13
string exactly when its last digit is the check digit
`(10 - sum % 10) % 10` of the weighted sum of the first 12 digits with
weights 1,3,1,3,..., and a length-8 string exactly when the same holds
with weights 3,1,3,1,... over the first 7 digits. -/
theorem ean_check_digit_characterization (s : List Char)
    (hdig : ∀ c ∈ s, c.isDigit = true) :
    (s.length = 13 →
      (isValidEan s = true ↔
        (s.map charToNum).getLast?.getD 0 =
          (10 - specWeightedSum 1 3 0 ((s.map charToNum).dropLast) % 10) % 10))
    ∧ (s.length = 8 →
      (isValidEan s = true ↔
        (s.map charToNum).getLast?.getD 0 =
          (10 - specWeightedSum 3 1 0 ((s.map charToNum).dropLast) % 10) % 10)) := by
  have hall : s.all Char.isDigit = true := by
    rw [List.all_eq_true]; intro c hc; exact hdig c hc
  constructor
  · intro h13
    have hne : s.isEmpty = false := by
      cases s with
      | nil => simp at h13
      | cons a as => rfl
    simp only [isValidEan, hne, hall, h13, Bool.not_false, Bool.and_self, Bool.not_true,
      Bool.false_and, if_false]
    norm_num
    rw [enum_eq_enumFrom, foldl_enumFrom_weight13]
    simp [eq_comm]
  · intro h8
    have hne : s.isEmpty = false := by
      cases s with
      | nil => simp at h8
      | cons a as => rfl
    simp only [isValidEan, hne, hall, h8, Bool.not_false, Bool.and_self, Bool.not_true,
      Bool.false_and, if_false]
    norm_num
    rw [enum_eq_enumFrom, foldl_enumFrom_weight8]
    simp [eq_comm]

/-- Witness for claim C1 at the true EAN-13 string 4006381333931. -/
theorem ean_check_digit_characterization_witness :
    (isValidEan ("4006381333931".toList) = true ↔
      (("4006381333931".toList).map charToNum).getLast?.getD 0 =
        (10 - specWeightedSum 1 3 0 ((("4006381333931".toList).map charToNum).dropLast) % 10) % 10) :=
  (ean_check_digit_characterization ("4006381333931".toList) (by decide)).1 (by decide)

/-- Claim C5: a string containing a non-digit, or whose length is
neither 8 nor 13, is rejected by the validator. -/
theorem ean_invalid_format (s : List Char)
    (h : (∃ c ∈ s, c.isDigit = false) ∨ (s.length ≠ 8 ∧ s.length ≠ 13)) :
    isValidEan s = false := by
  rcases h with ⟨c, hc, hcd⟩ | ⟨h8, h13⟩
  · have hall : s.all Char.isDigit = false := by
      rw [Bool.eq_false_iff]
      intro hcontra
      rw [List.all_eq_true] at hcontra
      have := hcontra c hc
      rw [hcd] at this
      exact Bool.false_ne_true this
    simp [isValidEan, hall]
  · by_cases he : s.isEmpty
    · simp [isValidEan, he]
    · simp [isValidEan, he, h8, h13]

/-- Witness for claim C5 at the length-11 string 40063813339. -/
theorem ean_invalid_format_witness :
    (("40063813339".toList).length ≠ 8 ∧ ("40063813339".toList).length ≠ 13)
    ∧ isValidEan ("40063813339".toList) = false :=
  ⟨by decide, ean_invalid_format ("40063813339".toList) (Or.inr (by decide))⟩

/-- Claim C10: an all-zero digit string of length 8 or 13 passes the
validator, since its weighted sum is 0 and the expected check digit
`(10 - 0 % 10) % 10 = 0` matches its final zero. -/
theorem ean_all_zero_valid (s : List Char) (h0 : ∀ c ∈ s, c = '0')
    (hlen : s.length = 8 ∨ s.length = 13) : isValidEan s = true := by
  have hs : s = List.replicate s.length '0' :=
    List.eq_replicate_iff.mpr ⟨rfl, h0⟩
  rcases hlen with h | h
  · rw [hs, h]; decide
  · rw [hs, h]; decide

/-- Witness for claim C10 at the all-zero EAN-8 string 00000000. -/
theorem ean_all_zero_valid_witness :
    (∀ c ∈ ("00000000".toList), c = '0') ∧ ("00000000".toList).length = 8
    ∧ isValidEan ("00000000".toList) = true :=
  ⟨by decide, by decide, ean_all_zero_valid ("00000000".toList) (by decide) (Or.inl (by decide))⟩

/-- Claim C2 counterexample: delivering three consecutive identical
valid candidates to a fresh session yields three `onScanSuccess`
invocations, not one — the wrapper has no at-most-once gate. -/
theorem gate_counterexample_triple_valid :
    successCount (sessionRun { stopped := false }
      [.deliver ("4006381333931".toList), .deliver ("4006381333931".toList),
       .deliver ("4006381333931".toList)]).2 = 3 ∧ (3 : Nat) ≠ 1 :=
  ⟨by decide, by decide⟩

/-- Claim C2 (amended): `onScanSuccess` fires once per valid candidate
delivered in a session — n valid candidates produce n invocations; the
code contains no gate limiting acceptance to at most once. -/
theorem gate_accepts_every_valid (s : ScanSession) (ts : List (List Char)) :
    successCount (sessionRun s (ts.map SessionInput.deliver)).2
      = (ts.filter fun t => isValidEan t).length := by
  induction ts generalizing s with
  | nil => rfl
  | cons t ts ih =>
    simp only [List.map_cons, sessionRun, sessionStep, List.filter_cons, successCount_append, ih]
    by_cases h : isValidEan t
    · simp [h, successCount]
      omega
    · simp [h, successCount]

/-- Claim C3 counterexample: a session that has received `stop` still
accepts a subsequently delivered valid candidate — `onScanSuccess`
fires once where the claim requires zero invocations. -/
theorem stop_then_deliver_counterexample :
    (sessionRun { stopped := false } [.stop, .deliver ("4006381333931".toList)]).1.stopped = true
    ∧ successCount (sessionRun { stopped := false }
        [.stop, .deliver ("4006381333931".toList)]).2 = 1
    ∧ (1 : Nat) ≠ 0 :=
  ⟨by decide, by decide, by decide⟩

/-- Claim C3 (amended): the candidate handler consults no closed flag —
its behavior is identical whether or not stop has run, so a valid
candidate delivered after stop still triggers `onScanSuccess`;
suppression relies entirely on the external library ceasing to deliver
callbacks. -/
theorem delivery_ignores_stopped_flag (b : Bool) (t : List Char) :
    successCount (sessionStep { stopped := b } (.deliver t)).2
      = if isValidEan t then 1 else 0 := by
  by_cases h : isValidEan t <;> simp [sessionStep, h, successCount]

/-- Claim C6: a delivered candidate results in an `onScanSuccess`
invocation exactly when `isValidEan` accepts its text, and never in an
`onScanFailure` invocation — invalid candidates are dropped silently. -/
theorem candidate_routing (s : ScanSession) (t : List Char) :
    (ScanEvent.successCall t ∈ (sessionStep s (.deliver t)).2 ↔ isValidEan t = true)
    ∧ ∀ m, ScanEvent.failureCall m ∉ (sessionStep s (.deliver t)).2 := by
  by_cases h : isValidEan t <;> simp [sessionStep, h]

/-- Claim C4: a decoder error whose message contains the marker
"not found" is swallowed by the failure wrappers of both scanner
components — `onScanFailure` is never invoked for it. -/
theorem not_found_suppressed (e : List Char)
    (h : strIncludes e notFoundMarker = true) :
    onScanFailureWrapper e = [] ∧ onScanFailureWrapperNew e = [] := by
  refine ⟨by simp [onScanFailureWrapper, h], ?_⟩
  have hm := strIncludes_map e notFoundMarker h
  rw [(by decide : notFoundMarker.map jsToLower = notFoundMarker)] at hm
  simp [onScanFailureWrapperNew, hm]

/-- Witness for claim C4 at the error message "QR code not found". -/
theorem not_found_suppressed_witness :
    strIncludes ("QR code not found".toList) notFoundMarker = true
    ∧ (onScanFailureWrapper ("QR code not found".toList) = []
       ∧ onScanFailureWrapperNew ("QR code not found".toList) = []) :=
  ⟨by decide, not_found_suppressed ("QR code not found".toList) (by decide)⟩

/-- Claim C7: both cleanup paths never let a teardown exception escape
to the caller, and running either cleanup a second time leaves the
camera state unchanged (in particular, no second release). -/
theorem cleanup_idempotent_nonthrowing (h : CameraHandle) :
    (cleanupComponentRun h).2 = false
    ∧ (cleanupNewRun h).2 = false
    ∧ cleanupComponentRun (cleanupComponentRun h).1 = ((cleanupComponentRun h).1, false)
    ∧ cleanupNewRun (cleanupNewRun h).1 = ((cleanupNewRun h).1, false) := by
  obtain ⟨b, n⟩ := h
  cases b <;> simp [cleanupComponentRun, cleanupNewRun, libTeardown]

/-- Claim C8: the three near-duplicate checksum validators are
extensionally equal — the explicit multiplication by 1 in the
`BarcodeScannerComponentNew.tsx` variant changes nothing, and the
`unnamed/part_000` variant is textually identical to the
`BarcodeScannerComponent.tsx` one. -/
theorem checksum_variants_equal (s : List Char) :
    isValidEanNew s = isValidEan s ∧ isValidEanPart000 s = isValidEan s := by
  constructor
  · simp only [isValidEanNew, isValidEan, Nat.mul_one]
  · rfl

/-- Claim C9 counterexample: on the error message "NOT FOUND" the
failure wrapper of `BarcodeScannerComponent.tsx` forwards the error
while the `BarcodeScannerComponentNew.tsx` wrapper suppresses it, so
the variants do not agree on every error string. -/
theorem error_wrappers_disagree :
    onScanFailureWrapper ("NOT FOUND".toList)
      ≠ onScanFailureWrapperNew ("NOT FOUND".toList) := by
  decide

/-- Claim C9 (amended): the `BarcodeScannerComponent.tsx` and
`unnamed/part_000` failure wrappers agree on every error string, and
every error the former suppresses is also suppressed by the
`BarcodeScannerComponentNew.tsx` wrapper; the variants differ exactly on
strings containing "not found" only case-insensitively, which the
lower-casing wrapper additionally suppresses. -/
theorem error_wrappers_agreement (e : List Char) :
    onScanFailureWrapper e = onScanFailureWrapperPart000 e
    ∧ (onScanFailureWrapper e = [] → onScanFailureWrapperNew e = []) := by
  refine ⟨rfl, ?_⟩
  intro h
  by_cases hc : strIncludes e notFoundMarker = true
  · have hm := strIncludes_map e notFoundMarker hc
    rw [(by decide : notFoundMarker.map jsToLower = notFoundMarker)] at hm
    simp [onScanFailureWrapperNew, hm]
  · exfalso
    simp [onScanFailureWrapper, hc] at h

/-- Witness for the amended claim C9 at the error message
"code not found". -/
theorem error_wrappers_agreement_witness :
    onScanFailureWrapper ("code not found".toList)
      = onScanFailureWrapperPart000 ("code not found".toList)
    ∧ onScanFailureWrapperNew ("code not found".toList) = [] :=
  ⟨(error_wrappers_agreement ("code not found".toList)).1,
   (error_wrappers_agreement ("code not found".toList)).2 (by decide)⟩
